import Mathlib

/-
Verification of the `string_or_struct` deserialization adapter from
src/edgelet/edgelet-utils/src/ser_de.rs.

The adapter is generic over a target type `T` with two capabilities:
`FromStr` (fallible parse from a raw string, error = serde_json::Error,
rendered as a message) and `Deserialize` (fallible structured decode from a
self-describing decoding source).  `string_or_struct` calls
`deserializer.deserialize_any` with a visitor implementing only `visit_str`
and `visit_map`:
  - `visit_str` forwards the raw string verbatim to `FromStr::from_str` and
    wraps a parser failure with `de::Error::custom` (message preserved);
  - `visit_map` wraps the map access in a `MapAccessDeserializer`, i.e. it
    re-exposes exactly the map's entries as a decoding source, and calls
    `T::deserialize` on it;
  - every other shape hits serde's default visitor methods, which produce
    `invalid_type(<unexpected>, &self)` where `&self` renders through
    `expecting`, i.e. the literal text "string or map".

We embed the already-tokenized value tree, the error channel, and the
dispatch function, and additionally an instrumented variant that records
which of the target's capabilities is invoked.
-/

namespace SerDe

/-- The already-tokenized value handed to the decoder by the framework
(serde_json-like tree of scalars, maps and sequences). -/
inductive Value where
  | str (s : String)
  | map (entries : List (String × Value))
  | num (n : Int)
  | bool (b : Bool)
  | null
  | seq (elems : List Value)

/-- Shape test: is the value a scalar string? -/
def Value.isStr : Value → Bool
  | .str _ => true
  | _ => false

/-- Shape test: is the value a key/value map? -/
def Value.isMap : Value → Bool
  | .map _ => true
  | _ => false

/-- A decode failure in the framework's error channel.  serde errors carry a
human-readable message (`Display`); we model exactly that message. -/
structure DeError where
  msg : String
deriving DecidableEq

/-- `de::Error::custom`: wrap an arbitrary displayable message as a decode
failure, verbatim. -/
def DeError.custom (m : String) : DeError := ⟨m⟩

/-- `de::Error::invalid_type(unexp, exp)`: serde's default rendering is
"invalid type: {unexp}, expected {exp}". -/
def DeError.invalidType (unexp expected : String) : DeError :=
  ⟨("invalid type: " ++ unexp ++ ", expected ") ++ expected⟩

/-- How serde's `Unexpected` renders each non-handled shape (used by the
default visitor methods when the visitor has no matching `visit_*`). -/
def unexpectedDesc : Value → String
  | .str s => "string " ++ s
  | .map _ => "map"
  | .num n => "integer `" ++ toString n ++ "`"
  | .bool b => "boolean `" ++ (if b then "true" else "false") ++ "`"
  | .null => "unit value"
  | .seq _ => "sequence"

/-- The trait bounds of `string_or_struct`:
`T: Deserialize<'de> + FromStr<Err = serde_json::Error>`.
`fromStr` is the string-parsing capability (its error is the parser's
message); `deserialize` is the structured-decode capability, consuming a
decoding source (a value). -/
structure Target (T : Type) where
  fromStr : String → Except String T
  deserialize : Value → Except DeError T

/-- `string_or_struct`: `deserialize_any` with the `StringOrStruct` visitor.
A string goes to `visit_str` (→ `FromStr`, failure wrapped by
`de::Error::custom`); a map goes to `visit_map` (→ `T::deserialize` over a
`MapAccessDeserializer` re-exposing exactly the map's entries); any other
shape falls to serde's default visitor methods, producing
`invalid_type(<shape>, "string or map")`. -/
def string_or_struct {T : Type} (tgt : Target T) : Value → Except DeError T
  | .str s => (tgt.fromStr s).mapError DeError.custom
  | .map entries => tgt.deserialize (.map entries)
  | v => .error (DeError.invalidType (unexpectedDesc v) "string or map")

/-- A record of one invocation of a target capability. -/
inductive Call where
  | fromStr (s : String)
  | deserialize (v : Value)

/-- The same dispatch as `string_or_struct`, additionally recording every
invocation of one of the target type's capabilities. -/
def stringOrStructTraced {T : Type} (tgt : Target T) :
    Value → Except DeError T × List Call
  | .str s => ((tgt.fromStr s).mapError DeError.custom, [.fromStr s])
  | .map entries =>
      (tgt.deserialize (.map entries), [.deserialize (.map entries)])
  | v => (.error (DeError.invalidType (unexpectedDesc v) "string or map"), [])

/-- A small concrete target instance (both capabilities implemented),
used to evaluate the theorems at concrete inputs. -/
def natTarget : Target Nat where
  fromStr s :=
    if s = "7" then Except.ok 7 else Except.error ("cannot parse " ++ s)
  deserialize v :=
    match v with
    | Value.map [("value", Value.num (Int.ofNat n))] => Except.ok n
    | _ => Except.error (DeError.custom "missing field value")

namespace Thms

open SerDe

/-- C1: for every target type with both capabilities, applying
`string_or_struct` to a map-shaped value yields exactly the same result
(same instance on success, same failure on error) as invoking the target
type's own structured-decode routine directly on that map: the map's
entries are passed to it as an unmodified decoding source. -/
theorem map_path_equivalence {T : Type} (tgt : Target T)
    (entries : List (String × Value)) :
    string_or_struct tgt (Value.map entries) =
      tgt.deserialize (Value.map entries) := rfl

/-- C2: for every string `s` accepted by the target's string-parser,
`string_or_struct` on the string-shaped value `s` yields exactly the value
the parser returns for `s` (the parser receives the raw string verbatim). -/
theorem string_path_ok {T : Type} (tgt : Target T) (s : String) (t : T)
    (h : tgt.fromStr s = Except.ok t) :
    string_or_struct tgt (Value.str s) = Except.ok t := by
  simp [string_or_struct, h, Except.mapError]

/-- C2 witness: `natTarget.fromStr "7"` accepts, and `string_or_struct`
returns its value. -/
theorem string_path_ok_witness :
    natTarget.fromStr "7" = Except.ok 7 ∧
      string_or_struct natTarget (Value.str "7") = Except.ok 7 :=
  ⟨rfl, string_path_ok natTarget "7" 7 rfl⟩

/-- C3: for every value whose shape is neither a string nor a map,
`string_or_struct` fails, and the failure's message mentions the text
"string or map". -/
theorem unsupported_shape {T : Type} (tgt : Target T) (v : Value)
    (hs : v.isStr = false) (hm : v.isMap = false) :
    ∃ e : DeError, string_or_struct tgt v = Except.error e ∧
      ∃ p : String, e.msg = p ++ "string or map" := by
  cases v <;> simp_all [Value.isStr, Value.isMap] <;>
    exact ⟨_, rfl, _, rfl⟩

/-- C3 witness: the number `42` is rejected with a message ending in
"string or map". -/
theorem unsupported_shape_witness :
    ∃ e : DeError, string_or_struct natTarget (Value.num 42) = Except.error e ∧
      ∃ p : String, e.msg = p ++ "string or map" :=
  unsupported_shape natTarget (Value.num 42) rfl rfl

/-- C4: for every string `s` rejected by the target's string-parser, the
result is a decode failure wrapping the parser's original error message
verbatim (`de::Error::custom`, no information loss or reformatting). -/
theorem string_path_err {T : Type} (tgt : Target T) (s msg : String)
    (h : tgt.fromStr s = Except.error msg) :
    string_or_struct tgt (Value.str s) =
      Except.error (DeError.custom msg) := by
  simp [string_or_struct, h, Except.mapError]

/-- C4 witness: `natTarget` rejects "x" and the parser's message is
preserved. -/
theorem string_path_err_witness :
    natTarget.fromStr "x" = Except.error "cannot parse x" ∧
      string_or_struct natTarget (Value.str "x") =
        Except.error (DeError.custom "cannot parse x") :=
  ⟨rfl, string_path_err natTarget "x" "cannot parse x" rfl⟩

/-- C5: for every map-shaped input on which the target's structured-decode
routine fails, `string_or_struct` returns that same failure unchanged. -/
theorem map_path_err {T : Type} (tgt : Target T)
    (entries : List (String × Value)) (e : DeError)
    (h : tgt.deserialize (Value.map entries) = Except.error e) :
    string_or_struct tgt (Value.map entries) = Except.error e := by
  simpa [string_or_struct] using h

/-- C5 witness: `natTarget.deserialize` fails on the empty map and that
exact failure is forwarded. -/
theorem map_path_err_witness :
    natTarget.deserialize (Value.map []) =
        Except.error (DeError.custom "missing field value") ∧
      string_or_struct natTarget (Value.map []) =
        Except.error (DeError.custom "missing field value") :=
  ⟨rfl, map_path_err natTarget [] (DeError.custom "missing field value") rfl⟩

/-- C6: `string_or_struct` is deterministic: two invocations on the same
fixed input (no shared state) yield identical results. -/
theorem deterministic {T : Type} (tgt : Target T) (v : Value)
    (r1 r2 : Except DeError T)
    (h1 : string_or_struct tgt v = r1)
    (h2 : string_or_struct tgt v = r2) : r1 = r2 :=
  h1 ▸ h2

/-- C6 witness: two invocations on the string "7" both return `ok 7`. -/
theorem deterministic_witness :
    string_or_struct natTarget (Value.str "7") = Except.ok 7 ∧
      (Except.ok 7 : Except DeError Nat) = Except.ok 7 :=
  ⟨rfl, deterministic natTarget (Value.str "7") (Except.ok 7) (Except.ok 7)
    rfl rfl⟩

/-- C7: for every input, `string_or_struct` produces exactly one of a fully
constructed target instance or a decode failure, never both and never a
partial result. -/
theorem exactly_one_outcome {T : Type} (tgt : Target T) (v : Value) :
    Xor' (∃ t, string_or_struct tgt v = Except.ok t)
      (∃ e, string_or_struct tgt v = Except.error e) := by
  cases h : string_or_struct tgt v with
  | ok t =>
      refine Or.inl ⟨⟨t, rfl⟩, ?_⟩
      rintro ⟨e, he⟩
      exact Except.noConfusion he
  | error e =>
      refine Or.inr ⟨⟨e, rfl⟩, ?_⟩
      rintro ⟨t, ht⟩
      exact Except.noConfusion ht

/-- C8: the dispatch terminates and is bounded: the instrumented version
computes the same result as `string_or_struct` and records at most one
re-entry into the target type's own routines (whose termination is a
precondition, here total by the type of `Target`). -/
theorem bounded_single_reentry {T : Type} (tgt : Target T) (v : Value) :
    (stringOrStructTraced tgt v).1 = string_or_struct tgt v ∧
      (stringOrStructTraced tgt v).2.length ≤ 1 := by
  cases v <;> simp [stringOrStructTraced, string_or_struct]

/-- C9: a map with zero entries is classified as a map and dispatched to
the map-path adapter (the recorded call is the target's structured-decode
routine on the empty map), never rejected as an unsupported shape: any
failure on an empty map is exactly the target routine's own failure. -/
theorem empty_map_dispatch {T : Type} (tgt : Target T) :
    string_or_struct tgt (Value.map []) = tgt.deserialize (Value.map []) ∧
      (stringOrStructTraced tgt (Value.map [])).2 =
        [Call.deserialize (Value.map [])] :=
  ⟨rfl, rfl⟩

/-- C10: on every value that is neither a string nor a map, the failure is
produced without invoking either capability (the recorded call list is
empty), and the resulting error is one and the same for any two target
types. -/
theorem shape_error_target_independent {T1 T2 : Type}
    (tgt1 : Target T1) (tgt2 : Target T2) (v : Value)
    (hs : v.isStr = false) (hm : v.isMap = false) :
    (stringOrStructTraced tgt1 v).2 = [] ∧
      ∃ e : DeError, string_or_struct tgt1 v = Except.error e ∧
        string_or_struct tgt2 v = Except.error e := by
  cases v <;> simp_all [Value.isStr, Value.isMap, stringOrStructTraced] <;>
    exact ⟨_, rfl, rfl⟩

/-- C10 witness: on the boolean `true`, two distinct targets record no
capability call and produce the identical error. -/
theorem shape_error_target_independent_witness :
    (stringOrStructTraced natTarget (Value.bool true)).2 = [] ∧
      ∃ e : DeError,
        string_or_struct natTarget (Value.bool true) = Except.error e ∧
          string_or_struct natTarget (Value.bool true) = Except.error e :=
  shape_error_target_independent natTarget natTarget (Value.bool true) rfl rfl

end Thms

end SerDe
